import Mathlib

/-!
Shallow embedding of `src/index_2.js` (the carderInfo-api service) and proofs
about it. Strings are Lean `String`s; the JavaScript numbers that occur here
are integers and are modelled as `Int`/`Nat`; an absent (or `null`/`undefined`)
JSON field is `Option.none`; the network interaction of the BIN lookup is
reified as an explicit upstream-outcome datum.
-/

namespace CarderInfo

/-! ### Character classes -/

/-- Code points matched by the regex class `\s` (also the whitespace skipped by
`parseInt`): space, tab, LF, VT, FF, CR, NBSP, Ogham space, the U+2000 to
U+200A range, LS, PS, NNBSP, MMSP, ideographic space and BOM. -/
def jsSpace (c : Char) : Bool :=
  decide (c.toNat = 32 ∨ c.toNat = 9 ∨ c.toNat = 10 ∨ c.toNat = 11 ∨
    c.toNat = 12 ∨ c.toNat = 13 ∨ c.toNat = 160 ∨ c.toNat = 5760 ∨
    (8192 ≤ c.toNat ∧ c.toNat ≤ 8202) ∨ c.toNat = 8232 ∨ c.toNat = 8233 ∨
    c.toNat = 8239 ∨ c.toNat = 8287 ∨ c.toNat = 12288 ∨ c.toNat = 65279)

/-- Code points matched by the regex class `\d`, i.e. `'0'` (48) to `'9'` (57). -/
def isDigitChar (c : Char) : Bool :=
  decide (48 ≤ c.toNat ∧ c.toNat ≤ 57)

/-- Numeric value of a digit character (`parseInt` on a single digit). -/
def charVal (c : Char) : Nat := c.toNat - 48

/-- Characters removed by the `replace` call of `luhnCheck` (regex class of
whitespace-or-hyphen, global): whitespace and the hyphen (code point 45). -/
def strippedChar (c : Char) : Bool :=
  jsSpace c || decide (c.toNat = 45)

/-! ### `luhnCheck` (src/index_2.js lines 12-36) -/

/-- The cleaned card number: every whitespace character and hyphen removed
(the `replace` call at the top of `luhnCheck`). -/
def cleanCard (s : String) : String :=
  ⟨s.data.filter (fun c => !strippedChar c)⟩

/-- The test `/^\d+$/.test s`: at least one character, and every character a
decimal digit. -/
def digitsOnly (s : String) : Bool :=
  !s.data.isEmpty && s.data.all isDigitChar

/-- The summation loop of `luhnCheck`: the list holds the card's characters
rightmost first, the flag is the `double` variable (initially `false`). -/
def luhnLoop : List Char → Bool → Nat
  | [], _ => 0
  | c :: rest, dbl =>
      let digit := charVal c
      let digit := if dbl then (if 2 * digit > 9 then 2 * digit - 9 else 2 * digit) else digit
      digit + luhnLoop rest (!dbl)

/-- `luhnCheck` from src/index_2.js: strip whitespace and hyphens, require the
remainder to match `/^\d+$/`, then test the mod-10 sum. -/
def luhnCheck (cardNumber : String) : Bool :=
  let cleaned := cleanCard cardNumber
  if digitsOnly cleaned then luhnLoop cleaned.data.reverse false % 10 == 0
  else false

/-! ### Spec-side model of the checksum algorithm

These definitions transcribe the specification's wording (spec.md section 4.1
and section 8), to be compared with `luhnCheck` above. The traversal is the
spec's: digits right to left, with an explicit 0-based position counter, the
digit at every odd position (every second digit starting from the first one
encountered) doubled and reduced by 9 when the double exceeds 9. -/

/-- Spec model: adjusted value of the digit `d` at right-to-left position `i`. -/
def specDigitAt (i d : Nat) : Nat :=
  if i % 2 = 1 then (if 2 * d > 9 then 2 * d - 9 else 2 * d) else d

/-- Spec model: sum of the adjusted digit values of a right-to-left digit
list, positions counted from `i`. -/
def specSumFrom : Nat → List Nat → Nat
  | _, [] => 0
  | i, d :: rest => specDigitAt i d + specSumFrom (i + 1) rest

/-- Spec model: the "mod-10 double-every-second-digit sum" of a string. -/
def specLuhnSum (s : String) : Nat :=
  specSumFrom 0 (s.data.reverse.map charVal)

/-- Spec model of the claimed algorithm, verbatim: strip spaces and hyphens;
if any remaining character is a non-digit return `false`; otherwise `true`
iff the checksum sum is exactly divisible by 10. -/
def specChecksum (s : String) : Bool :=
  let remaining := s.data.filter (fun c => !(decide (c.toNat = 32) || decide (c.toNat = 45)))
  if remaining.all isDigitChar then specSumFrom 0 (remaining.reverse.map charVal) % 10 == 0
  else false

/-- Spec model, amended: strip every whitespace character and hyphen; if
nothing remains, or any remaining character is a non-digit, return `false`;
otherwise `true` iff the checksum sum is exactly divisible by 10. -/
def specChecksumAmended (s : String) : Bool :=
  let remaining := s.data.filter (fun c => !(jsSpace c || decide (c.toNat = 45)))
  if remaining.isEmpty then false
  else if remaining.all isDigitChar then
    specSumFrom 0 (remaining.reverse.map charVal) % 10 == 0
  else false

/-! ### Bridge lemmas between the loop and the spec sum -/

theorem luhnLoop_eq_specSumFrom (l : List Char) (i : Nat) :
    luhnLoop l (decide (i % 2 = 1)) = specSumFrom i (l.map charVal) := by
  induction l generalizing i with
  | nil => simp [luhnLoop, specSumFrom]
  | cons c rest ih =>
      rcases Nat.mod_two_eq_zero_or_one i with h | h
      · have h1 : (i + 1) % 2 = 1 := by omega
        have hrec := ih (i + 1)
        simp only [h1, decide_True] at hrec
        simp [luhnLoop, specSumFrom, specDigitAt, h, hrec]
      · have h1 : (i + 1) % 2 = 0 := by omega
        have hrec := ih (i + 1)
        simp only [h1] at hrec
        simp only [Nat.zero_ne_one, decide_False] at hrec
        simp [luhnLoop, specSumFrom, specDigitAt, h, hrec]

theorem luhnLoop_false (l : List Char) :
    luhnLoop l false = specSumFrom 0 (l.map charVal) := by
  simpa using luhnLoop_eq_specSumFrom l 0

/-- A decimal digit is neither whitespace nor a hyphen, so stripping keeps it. -/
theorem digit_kept {c : Char} (h : isDigitChar c = true) :
    (!strippedChar c) = true := by
  simp only [isDigitChar, decide_eq_true_eq] at h
  simp only [strippedChar, jsSpace, Bool.not_eq_true', Bool.or_eq_false_iff,
    decide_eq_false_iff_not]
  omega

/-! ### `parseInt` and `isExpiryValid` (src/index_2.js lines 44-68) -/

/-- Value of the longest leading run of decimal digits; `none` when the first
character is not a digit (JavaScript `parseInt` yields `NaN` then). -/
def leadingDigitsVal (l : List Char) : Option Nat :=
  let ds := l.takeWhile isDigitChar
  if ds.isEmpty then none
  else some (ds.foldl (fun a c => 10 * a + charVal c) 0)

/-- JavaScript `parseInt(s, 10)`: skip leading whitespace, read an optional
sign, then the longest run of digits; `NaN` (here `none`) when no digit
follows. -/
def parseIntJs (s : String) : Option Int :=
  match s.data.dropWhile jsSpace with
  | '-' :: rest => (leadingDigitsVal rest).map fun n => -(n : Int)
  | '+' :: rest => (leadingDigitsVal rest).map fun n => (n : Int)
  | rest => (leadingDigitsVal rest).map fun n => (n : Int)

/-- The `fullYear` computation of `isExpiryValid`: a year string of length
two is taken as `2000 + parseInt(year, 10)`, any other length literally. -/
def resolvedYear (year : String) : Option Int :=
  if year.length = 2 then (parseIntJs year).map fun y => 2000 + y
  else parseIntJs year

/-- `isExpiryValid` from src/index_2.js, with the call-time clock passed
explicitly: `cy` is `new Date().getFullYear()` and `cm` the 1-based
`new Date().getMonth() + 1`. A `none` from parsing is JavaScript `NaN`. -/
def isExpiryValid (cy cm : Int) (month year : String) : Bool :=
  match parseIntJs month, resolvedYear year with
  | some monthInt, some fullYear =>
      if monthInt < 1 ∨ monthInt > 12 then false
      else if fullYear < cy then false
      else if fullYear = cy ∧ monthInt < cm then false
      else true
  | _, _ => false

/-! ### Upstream data model and `lookupBin` (src/index_2.js lines 77-117) -/

/-- A primitive JSON value passed through unmodified from the upstream body. -/
inductive JVal where
  | str (s : String)
  | num (n : Int)
  | boolean (b : Bool)
deriving DecidableEq

/-- The optional `number` object of the upstream reply. -/
structure NumberInfo where
  length : Option JVal
  luhn : Option Bool
deriving DecidableEq

/-- The optional `country` object of the upstream reply. -/
structure CountryInfo where
  name : Option JVal
  alpha2 : Option JVal
  numeric : Option JVal
  currency : Option JVal
  emoji : Option JVal
  latitude : Option JVal
  longitude : Option JVal
deriving DecidableEq

/-- The optional `bank` object of the upstream reply. -/
structure BankInfo where
  name : Option JVal
  url : Option JVal
  phone : Option JVal
  city : Option JVal
deriving DecidableEq

/-- The parsed upstream JSON reply; `none` models an absent (or `null`)
field, which is falsy in the source's conditionals. -/
structure BinData where
  scheme : Option String
  brand : Option String
  type : Option String
  prepaid : Option Bool
  number : Option NumberInfo
  country : Option CountryInfo
  bank : Option BankInfo
deriving DecidableEq

/-- The object handed to `reject` by `lookupBin`: an `error` text, an
optional `status` and optional `details`. -/
structure RejectObj where
  error : String
  status : Option Nat
  details : Option String
deriving DecidableEq

/-- What the single outbound HTTPS request produced: a full response with a
status code and body, or a transport-level error event. -/
inductive UpstreamOutcome where
  | response (statusCode : Nat) (body : String)
  | transportError (message : String)
deriving DecidableEq

def parseErrorMsg : String := "Erro ao analisar a resposta da BIN List"

def notFoundMsg : String := "BIN não encontrado na base de dados."

def upstreamErrMsg (statusCode : Nat) : String :=
  "Erro na consulta à BIN List: Status " ++ toString statusCode

def transportErrMsg : String := "Erro na requisição HTTP para a BIN List"

/-- Placeholder for the runtime-generated `SyntaxError` message attached as
`details` on a JSON parse failure; no observable behaviour depends on it. -/
def jsonErrorDetails : String := "Unexpected token"

/-- `lookupBin` from src/index_2.js, with the network call reified: `pj` is
`JSON.parse` (returning `none` on malformed input), `Except.ok` is `resolve`
and `Except.error` is `reject`. -/
def lookupBin (pj : String → Option BinData) : UpstreamOutcome → Except RejectObj BinData
  | .response statusCode body =>
      if statusCode = 200 then
        match pj body with
        | some d => .ok d
        | none => .error ⟨parseErrorMsg, none, some jsonErrorDetails⟩
      else if statusCode = 404 then
        .error ⟨notFoundMsg, some 404, none⟩
      else
        .error ⟨upstreamErrMsg statusCode, none, some body⟩
  | .transportError m => .error ⟨transportErrMsg, none, some m⟩

/-! ### Response shapes and the request handler (src/index_2.js lines 120-223) -/

/-- `API_METADATA`. -/
structure Metadata where
  author : String
  contact : String
  version : String
deriving DecidableEq

def apiMetadata : Metadata := ⟨"Sam", "t.me/samblackhat", "1.0.1-enriched"⟩

/-- The `request` echo of the four path parameters. -/
structure RequestEcho where
  bin : String
  cardNumber : String
  expiryMonth : String
  expiryYear : String
deriving DecidableEq

/-- The `validation` object; both fields are assigned before any response
is written in the card branch. -/
structure ValidationObj where
  luhn_valid : Bool
  expiry_valid : Bool
deriving DecidableEq

/-- The `number_details` object of `card_info`. A `none` field models
JavaScript `undefined`, which `JSON.stringify` omits from the output. -/
structure NumberDetails where
  length : Option JVal
  luhn_check_status : String
deriving DecidableEq

/-- The `coordinates` object inside `card_info.country`. -/
structure CoordinatesOut where
  latitude : Option JVal
  longitude : Option JVal
deriving DecidableEq

/-- The `country` object of `card_info`. -/
structure CountryOut where
  name : Option JVal
  alpha2 : Option JVal
  numeric : Option JVal
  currency : Option JVal
  emoji : Option JVal
  coordinates : CoordinatesOut
deriving DecidableEq

/-- The `bank` object of `card_info`. -/
structure BankOut where
  name : Option JVal
  url : Option JVal
  phone_sac : Option JVal
  city : Option JVal
deriving DecidableEq

/-- The assembled `card_info` object of the 200 response. -/
structure CardInfo where
  scheme : String
  brand : String
  type : String
  prepaid : String
  number_details : NumberDetails
  country : CountryOut
  bank : BankOut
deriving DecidableEq

/-- `x || 'N/A'` on an optional string field (the empty string is falsy). -/
def orNA : Option String → String
  | some s => if s = "" then "N/A" else s
  | none => "N/A"

/-- `x ? 'Sim' : 'Não'` on an optional boolean (truthy iff present and true);
also models the strict `prepaid === true` test. -/
def simNao (o : Option Bool) : String :=
  if o = some true then "Sim" else "Não"

/-- The string sentinel written for an entirely absent upstream object. -/
def naJ : Option JVal := some (.str "N/A")

/-- The `response.card_info` assembly of the success branch. Each `country`
and `bank` sub-field checks only whether the parent object is truthy: with
the parent present, an absent sub-field stays `none` (serialized as nothing). -/
def buildCardInfo (b : BinData) : CardInfo where
  scheme := orNA b.scheme
  brand := orNA b.brand
  type := orNA b.type
  prepaid := simNao b.prepaid
  number_details :=
    { length := match b.number with | some n => n.length | none => naJ
      luhn_check_status := match b.number with | some n => simNao n.luhn | none => "N/A" }
  country :=
    match b.country with
    | some c => ⟨c.name, c.alpha2, c.numeric, c.currency, c.emoji, ⟨c.latitude, c.longitude⟩⟩
    | none => ⟨naJ, naJ, naJ, naJ, naJ, ⟨naJ, naJ⟩⟩
  bank :=
    match b.bank with
    | some k => ⟨k.name, k.url, k.phone, k.city⟩
    | none => ⟨naJ, naJ, naJ, naJ⟩

/-- The JSON body of every card-branch response. -/
structure CardResponse where
  metadata : Metadata
  request : RequestEcho
  validation : ValidationObj
  card_info : Option CardInfo
  status : String
  message : String
deriving DecidableEq

/-- A serialized response body: either the fixed unknown-route object (which
has only `status`, `message` and `example` - no metadata or request echo) or
a card-branch `CardResponse`. -/
inductive ResponseBody where
  | route404 (status message usage : String)
  | card (r : CardResponse)
deriving DecidableEq

/-- One settled HTTP exchange: status code, body, and whether the outbound
BIN lookup was issued while producing it. -/
structure HandlerResult where
  statusCode : Nat
  body : ResponseBody
  lookupCalled : Bool
deriving DecidableEq

def luhnFailMsg : String :=
  "Falha na validação estrutural do número do cartão (Algoritmo de Luhn)."

def expiryFailMsg : String :=
  "Falha na validação da data de expiração (cartão expirado ou data inválida)."

def successMsg : String := "Validação e consulta concluídas com sucesso."

def internalErrMsg : String := "Erro interno do servidor durante a consulta externa."

def usageMsg : String :=
  "Endpoint não encontrado. Use o formato: /cardinfo/:bin/:card_number/:expiry_month/:expiry_year"

def usageExample : String := "/cardinfo/457173/4571736000000000/12/28"

/-- The fixed unknown-route 404 exchange. -/
def notFoundResult : HandlerResult :=
  ⟨404, .route404 "error" usageMsg usageExample, false⟩

/-- The `response` object as first assembled (validation booleans filled in,
`card_info` still null, status `error`). -/
def baseResponse (bin cardNumber expiryMonth expiryYear : String) (cy cm : Int) : CardResponse where
  metadata := apiMetadata
  request := ⟨bin, cardNumber, expiryMonth, expiryYear⟩
  validation := ⟨luhnCheck cardNumber, isExpiryValid cy cm expiryMonth expiryYear⟩
  card_info := none
  status := "error"
  message := "Processamento iniciado."

/-- The card branch of the handler: local validation, then the lookup, then
response assembly; the catch branch maps a rejection to `e.status || 500`. -/
def cardFlow (pj : String → Option BinData) (bin cardNumber expiryMonth expiryYear : String)
    (cy cm : Int) (up : UpstreamOutcome) : HandlerResult :=
  let base := baseResponse bin cardNumber expiryMonth expiryYear cy cm
  if luhnCheck cardNumber = false then
    ⟨400, .card { base with message := luhnFailMsg }, false⟩
  else if isExpiryValid cy cm expiryMonth expiryYear = false then
    ⟨400, .card { base with message := expiryFailMsg }, false⟩
  else
    match lookupBin pj up with
    | .ok binData =>
        ⟨200,
         .card { base with
                   status := "success"
                   message := successMsg
                   card_info := some (buildCardInfo binData) },
         true⟩
    | .error e =>
        ⟨e.status.getD 500,
         .card { base with message := if e.error = "" then internalErrMsg else e.error }, true⟩

/-- JavaScript `string.split(sep)` for a one-character separator. -/
def splitOnChar (sep : Char) : List Char → List String
  | [] => [""]
  | c :: rest =>
      let r := splitOnChar sep rest
      if c = sep then "" :: r
      else
        match r with
        | h :: t => (⟨c :: h.data⟩ : String) :: t
        | [] => [⟨[c]⟩]

/-- `url.parse(req.url).pathname`: the request target up to the first query
or fragment delimiter. -/
def pathnameOf (u : String) : String :=
  ⟨u.data.takeWhile (fun c => !(c == '?' || c == '#'))⟩

/-- `pathname.split(slash).filter(segment => segment.length > 0)`. -/
def segsOf (u : String) : List String :=
  (splitOnChar '/' (pathnameOf u).data).filter (fun s => s.length > 0)

/-- The route test `pathSegments[0] === 'cardinfo' && pathSegments.length === 5`
together with the destructuring of the four parameters. -/
def routeSeg : List String → Option (String × String × String × String)
  | [s0, b, c, m, y] => if s0 = "cardinfo" then some (b, c, m, y) else none
  | _ => none

/-- The HTTP request handler of src/index_2.js: a GET on the five-segment
`cardinfo` pattern enters the card branch, anything else gets the fixed 404. -/
def handleRequest (pj : String → Option BinData) (method urlStr : String)
    (cy cm : Int) (up : UpstreamOutcome) : HandlerResult :=
  match routeSeg (segsOf urlStr) with
  | some (b, c, m, y) =>
      if method = "GET" then cardFlow pj b c m y cy cm up else notFoundResult
  | none => notFoundResult

/-! ### Claims C1, C2, C9: the checksum validator -/

theorem data_ne_nil_of_ne_empty {s : String} (h : s ≠ "") : s.data ≠ [] := by
  intro hd
  apply h
  cases s with
  | mk l => simp only at hd; subst hd; rfl

theorem cleanCard_of_digits {s : String} (h : s.data.all isDigitChar = true) :
    cleanCard s = s := by
  cases s with
  | mk l =>
      simp only [cleanCard]
      exact congrArg String.mk
        (List.filter_eq_self.mpr fun c hc => digit_kept (List.all_eq_true.mp h c hc))

/-- C1 counterexample: the empty string consists only of digits (vacuously),
its mod-10 double-every-second-digit sum is 0, which is divisible by 10, yet
`luhnCheck` returns `false` on it, so the claimed equivalence fails at `""`. -/
theorem luhn_empty_string_spec_gap :
    "".data.all isDigitChar = true ∧ luhnCheck "" = false ∧ specLuhnSum "" % 10 = 0 := by
  decide

/-- C1 (amended to nonempty digit strings): for every nonempty string of
digits, `luhnCheck` returns `true` iff the mod-10 double-every-second-digit
sum is divisible by 10; in particular it accepts `4571736000000000` and
rejects `4571736000000001`. -/
theorem luhn_nonempty_digit_strings_mod10 :
    (∀ s : String, s ≠ "" → s.data.all isDigitChar = true →
      (luhnCheck s = true ↔ specLuhnSum s % 10 = 0)) ∧
    luhnCheck "4571736000000000" = true ∧ luhnCheck "4571736000000001" = false := by
  refine ⟨fun s hne hdig => ?_, by decide, by decide⟩
  have hclean := cleanCard_of_digits hdig
  have hdo : digitsOnly s = true := by
    simp only [digitsOnly, Bool.and_eq_true, Bool.not_eq_true', hdig, and_true]
    simpa using data_ne_nil_of_ne_empty hne
  simp only [luhnCheck, hclean, hdo, if_true, luhnLoop_false, specLuhnSum, beq_iff_eq]

/-- C1 witness: the theorem applied at the concrete digit string `59`
(checksum sum 10, so the card number is accepted). -/
theorem luhn_nonempty_digit_strings_mod10_witness :
    luhnCheck "59" = true ↔ specLuhnSum "59" % 10 = 0 :=
  luhn_nonempty_digit_strings_mod10.1 "59" (by decide) (by decide)

/-- C2 counterexample: the claimed algorithm (strip spaces and hyphens,
reject on any remaining non-digit, otherwise test the sum) accepts the empty
string, which `luhnCheck` rejects; and on the string `0` followed by a tab
`luhnCheck` answers `true` (it strips every whitespace character, not only
spaces) while the claimed algorithm answers `false` (a tab survives its strip
and is a non-digit). -/
theorem luhn_algorithm_empty_and_tab_gap :
    specChecksum "" = true ∧ luhnCheck "" = false ∧
    luhnCheck "0\t" = true ∧ specChecksum "0\t" = false := by
  decide

/-- C2 (amended): `luhnCheck` implements the stated algorithm with two
adjustments - the strip removes every whitespace character (not only spaces)
along with hyphens, and an input left empty by the strip is rejected. -/
theorem luhn_eq_spec_checksum_amended :
    ∀ s : String, luhnCheck s = specChecksumAmended s := by
  intro s
  cases s with
  | mk l =>
      simp only [luhnCheck, specChecksumAmended, cleanCard, digitsOnly, strippedChar]
      cases he : (l.filter fun c => !(jsSpace c || decide (c.toNat = 45))).isEmpty <;>
        cases ha : (l.filter fun c => !(jsSpace c || decide (c.toNat = 45))).all isDigitChar <;>
          simp [he, ha, luhnLoop_false]

/-- C9: `luhnCheck` returns `false` (a value, not an error) on the empty
string, and on every input whose stripped form is empty, because the
digits-only test requires at least one digit. -/
theorem luhn_empty_clean_false :
    luhnCheck "" = false ∧ ∀ s : String, cleanCard s = "" → luhnCheck s = false := by
  refine ⟨by decide, fun s h => ?_⟩
  simp [luhnCheck, h, digitsOnly]

/-- C9 witness: a string of only spaces and hyphens strips to the empty
string and is rejected. -/
theorem luhn_empty_clean_false_witness : luhnCheck " - " = false :=
  luhn_empty_clean_false.2 " - " (by decide)

/-! ### Claim C3: expiry validation -/

/-- C3: with the call-time clock passed as parameters, `isExpiryValid` is
`false` exactly when the month or the year fails to parse, the parsed month
lies outside 1..12, the resolved year (2000 + year for a length-two year
string, the literal parse otherwise) is strictly before the current year, or
it equals the current year and the month is strictly before the current
month; in every other case it is `true`, so the current month/year and every
strictly future month/year are accepted. -/
theorem expiry_valid_characterization (cy cm : Int) (month year : String) :
    isExpiryValid cy cm month year = false ↔
      (parseIntJs month = none ∨ resolvedYear year = none ∨
        ∃ m fy : Int, parseIntJs month = some m ∧ resolvedYear year = some fy ∧
          (m < 1 ∨ 12 < m ∨ fy < cy ∨ (fy = cy ∧ m < cm))) := by
  rcases hm : parseIntJs month with _ | m <;> rcases hy : resolvedYear year with _ | fy <;>
    simp [isExpiryValid, hm, hy]
  omega

/-! ### Routing lemmas and claims C6, C8, C10 -/

theorem routeSeg_some_iff (l : List String) (b c m y : String) :
    routeSeg l = some (b, c, m, y) ↔ l = ["cardinfo", b, c, m, y] := by
  rcases l with _ | ⟨s0, _ | ⟨s1, _ | ⟨s2, _ | ⟨s3, _ | ⟨s4, _ | ⟨s5, t⟩⟩⟩⟩⟩⟩ <;>
    simp [routeSeg]

theorem routeSeg_none_iff (l : List String) :
    routeSeg l = none ↔ ∀ b c m y : String, l ≠ ["cardinfo", b, c, m, y] := by
  constructor
  · intro h b c m y hl
    have hs := (routeSeg_some_iff l b c m y).mpr hl
    rw [h] at hs
    exact Option.noConfusion hs
  · intro h
    cases hr : routeSeg l with
    | none => rfl
    | some q =>
        obtain ⟨b, c, m, y⟩ := q
        exact absurd ((routeSeg_some_iff l b c m y).mp hr) (h b c m y)

/-- In every branch of the card flow, the body is a `CardResponse` carrying
the fixed metadata, the verbatim echo of the four parameters, and both
validation booleans. -/
theorem cardFlow_body (pj : String → Option BinData) (bin cn em ey : String)
    (cy cm : Int) (up : UpstreamOutcome) :
    ∃ cr : CardResponse, (cardFlow pj bin cn em ey cy cm up).body = .card cr ∧
      cr.metadata = apiMetadata ∧ cr.request = ⟨bin, cn, em, ey⟩ ∧
      cr.validation = ⟨luhnCheck cn, isExpiryValid cy cm em ey⟩ := by
  simp only [cardFlow]
  split_ifs with h1 h2
  · exact ⟨_, rfl, rfl, rfl, rfl⟩
  · exact ⟨_, rfl, rfl, rfl, rfl⟩
  · cases lookupBin pj up with
    | ok d => exact ⟨_, rfl, rfl, rfl, rfl⟩
    | error e => exact ⟨_, rfl, rfl, rfl, rfl⟩

/-- C6: a GET request is dispatched to the card flow exactly when its path
splits into the five non-empty segments `cardinfo`, bin, card number, month
and year; every other path gets the fixed 404 usage-hint body, which carries
only `status`, `message` and the example - no metadata or request echo. -/
theorem routing_dispatch (pj : String → Option BinData) (u : String)
    (cy cm : Int) (up : UpstreamOutcome) :
    (∀ b c m y : String, segsOf u = ["cardinfo", b, c, m, y] →
      handleRequest pj "GET" u cy cm up = cardFlow pj b c m y cy cm up) ∧
    ((∀ b c m y : String, segsOf u ≠ ["cardinfo", b, c, m, y]) →
      handleRequest pj "GET" u cy cm up =
        ⟨404, .route404 "error" usageMsg usageExample, false⟩) := by
  constructor
  · intro b c m y h
    have hr : routeSeg (segsOf u) = some (b, c, m, y) :=
      (routeSeg_some_iff _ _ _ _ _).mpr h
    simp [handleRequest, hr]
  · intro h
    have hr : routeSeg (segsOf u) = none := (routeSeg_none_iff _).mpr h
    simp [handleRequest, hr, notFoundResult]

/-- C6 witness: a well-formed path is dispatched to the card flow. -/
theorem routing_dispatch_witness :
    handleRequest (fun _ => none) "GET" "/cardinfo/a/b/c/d" 2025 10 (.transportError "x") =
      cardFlow (fun _ => none) "a" "b" "c" "d" 2025 10 (.transportError "x") :=
  (routing_dispatch (fun _ => none) "/cardinfo/a/b/c/d" 2025 10
    (.transportError "x")).1 "a" "b" "c" "d" (by decide)

/-- C8: whenever the handler's body is a card response (every 200, 400 and
upstream-failure response, i.e. everything except the unknown-route 404),
its metadata is the fixed `API_METADATA` and its request object echoes the
four path segments verbatim. -/
theorem metadata_and_request_echo (pj : String → Option BinData)
    (method u : String) (cy cm : Int) (up : UpstreamOutcome) (cr : CardResponse)
    (h : (handleRequest pj method u cy cm up).body = .card cr) :
    cr.metadata = apiMetadata ∧
    segsOf u = ["cardinfo", cr.request.bin, cr.request.cardNumber,
      cr.request.expiryMonth, cr.request.expiryYear] := by
  cases hr : routeSeg (segsOf u) with
  | none => simp [handleRequest, hr, notFoundResult] at h
  | some q =>
      obtain ⟨b, c, m, y⟩ := q
      by_cases hmeth : method = "GET"
      · simp only [handleRequest, hr, hmeth, if_true] at h
        obtain ⟨cr', hbody, hmeta, hreq, _⟩ := cardFlow_body pj b c m y cy cm up
        have hcr : cr' = cr := by
          have h2 := hbody.symm.trans h
          injection h2
        subst hcr
        refine ⟨hmeta, ?_⟩
        rw [hreq]
        exact (routeSeg_some_iff _ _ _ _ _).mp hr
      · simp [handleRequest, hr, hmeth, notFoundResult] at h

/-- The card response produced for `GET /cardinfo/a/b/c/d` (card number `b`
fails the checksum, so the 400 branch fires). -/
def sampleCardResponse : CardResponse :=
  ⟨apiMetadata, ⟨"a", "b", "c", "d"⟩, ⟨false, false⟩, none, "error", luhnFailMsg⟩

/-- C8 witness: the echo property at a concrete request. -/
theorem metadata_and_request_echo_witness :
    sampleCardResponse.metadata = apiMetadata ∧
    segsOf "/cardinfo/a/b/c/d" = ["cardinfo", sampleCardResponse.request.bin,
      sampleCardResponse.request.cardNumber, sampleCardResponse.request.expiryMonth,
      sampleCardResponse.request.expiryYear] :=
  metadata_and_request_echo (fun _ => none) "GET" "/cardinfo/a/b/c/d" 2025 10
    (.transportError "x") sampleCardResponse (by decide)

/-- C10: a request whose path matches the five-segment pattern but whose
method is not GET gets the same fixed 404 usage-hint response as an unknown
path; no card response is built and the outbound lookup is not issued. -/
theorem non_get_method_rejected (pj : String → Option BinData)
    (method u : String) (cy cm : Int) (up : UpstreamOutcome) (b c m y : String)
    (hm : method ≠ "GET") (hs : segsOf u = ["cardinfo", b, c, m, y]) :
    handleRequest pj method u cy cm up =
      ⟨404, .route404 "error" usageMsg usageExample, false⟩ := by
  have hr : routeSeg (segsOf u) = some (b, c, m, y) :=
    (routeSeg_some_iff _ _ _ _ _).mpr hs
  simp [handleRequest, hr, hm, notFoundResult]

/-- C10 witness: a POST to a well-formed card path is rejected with the
fixed 404 body and no lookup. -/
theorem non_get_method_rejected_witness :
    handleRequest (fun _ => none) "POST" "/cardinfo/a/b/c/d" 2025 10 (.transportError "x") =
      ⟨404, .route404 "error" usageMsg usageExample, false⟩ :=
  non_get_method_rejected (fun _ => none) "POST" "/cardinfo/a/b/c/d" 2025 10
    (.transportError "x") "a" "b" "c" "d" (by decide) (by decide)

/-! ### Claim C5: the validation branch -/

/-- C5: both validation booleans are always placed in the response body; a
failed checksum yields a 400 with null `card_info` (the expiry boolean still
present), an expiry failure after a passing checksum likewise, and in both
400 cases the outbound lookup is never issued. -/
theorem validation_branch_behavior (pj : String → Option BinData)
    (bin cn em ey : String) (cy cm : Int) (up : UpstreamOutcome) :
    (∃ cr : CardResponse, (cardFlow pj bin cn em ey cy cm up).body = .card cr ∧
      cr.validation.luhn_valid = luhnCheck cn ∧
      cr.validation.expiry_valid = isExpiryValid cy cm em ey) ∧
    (luhnCheck cn = false →
      cardFlow pj bin cn em ey cy cm up =
        ⟨400, .card ⟨apiMetadata, ⟨bin, cn, em, ey⟩,
          ⟨false, isExpiryValid cy cm em ey⟩, none, "error", luhnFailMsg⟩, false⟩) ∧
    (luhnCheck cn = true → isExpiryValid cy cm em ey = false →
      cardFlow pj bin cn em ey cy cm up =
        ⟨400, .card ⟨apiMetadata, ⟨bin, cn, em, ey⟩,
          ⟨true, false⟩, none, "error", expiryFailMsg⟩, false⟩) := by
  refine ⟨?_, fun h => ?_, fun h1 h2 => ?_⟩
  · obtain ⟨cr, hb, _, _, hv⟩ := cardFlow_body pj bin cn em ey cy cm up
    exact ⟨cr, hb, by rw [hv], by rw [hv]⟩
  · simp [cardFlow, h, baseResponse]
  · simp [cardFlow, h1, h2, baseResponse]

/-- C5 witness: the spec's end-to-end 400 example, with the lookup stub and
clock fixed: checksum fails, the expiry boolean is still reported, the body
carries null `card_info`, and no lookup is issued. -/
theorem validation_branch_behavior_witness :
    cardFlow (fun _ => none) "457173" "4571736000000001" "12" "28" 2025 10
        (.transportError "x") =
      ⟨400, .card ⟨apiMetadata, ⟨"457173", "4571736000000001", "12", "28"⟩,
        ⟨false, true⟩, none, "error", luhnFailMsg⟩, false⟩ :=
  ((validation_branch_behavior (fun _ => none) "457173" "4571736000000001" "12" "28"
    2025 10 (.transportError "x")).2.1 (by decide)).trans (by decide)

/-! ### Claim C4: the lookup outcome mapping -/

theorem upstreamErrMsg_ne_empty (s : Nat) : upstreamErrMsg s ≠ "" := by
  intro h
  have hlen := congrArg String.length h
  rw [upstreamErrMsg, String.length_append] at hlen
  have h1 : 0 < ("Erro na consulta à BIN List: Status " : String).length := by decide
  have h2 : ("" : String).length = 0 := by decide
  omega

/-- Every rejection object produced by `lookupBin` carries a non-empty
`error` text, so the catch branch's fallback message never fires. -/
theorem lookupBin_error_ne_empty (pj : String → Option BinData)
    (up : UpstreamOutcome) (e : RejectObj) (h : lookupBin pj up = .error e) :
    e.error ≠ "" := by
  cases up with
  | response s body =>
      by_cases h200 : s = 200
      · subst h200
        simp only [lookupBin, if_pos rfl] at h
        cases hp : pj body <;> rw [hp] at h
        · injection h with h'
          rw [← h']
          decide
        · exact Except.noConfusion h
      · by_cases h404 : s = 404
        · subst h404
          simp only [lookupBin, if_neg h200, if_pos rfl] at h
          injection h with h'
          rw [← h']
          decide
        · simp only [lookupBin, if_neg h200, if_neg h404] at h
          injection h with h'
          rw [← h']
          exact upstreamErrMsg_ne_empty s
  | transportError msg =>
      simp only [lookupBin] at h
      injection h with h'
      rw [← h']
      exact (by decide : transportErrMsg ≠ "")

/-- C4: once validation passes, each upstream outcome maps to exactly one
HTTP result: a parseable 200 body resolves and produces a 200 response with
the assembled card info; upstream 404 rejects with an attached status 404
and the response is 404; any other status rejects with the status in the
message and the raw body as details, and the response is 500; a malformed
200 body and a transport error each reject without a status and produce 500;
and every rejection is answered with `e.status || 500`, null `card_info`,
and the rejection's own message. -/
theorem lookup_outcome_mapping (pj : String → Option BinData) (cy cm : Int)
    (bin cn em ey : String) (hl : luhnCheck cn = true)
    (he : isExpiryValid cy cm em ey = true) :
    (∀ body d, pj body = some d →
      lookupBin pj (.response 200 body) = .ok d ∧
      cardFlow pj bin cn em ey cy cm (.response 200 body) =
        ⟨200, .card ⟨apiMetadata, ⟨bin, cn, em, ey⟩, ⟨true, true⟩,
          some (buildCardInfo d), "success", successMsg⟩, true⟩) ∧
    (∀ body,
      lookupBin pj (.response 404 body) = .error ⟨notFoundMsg, some 404, none⟩ ∧
      cardFlow pj bin cn em ey cy cm (.response 404 body) =
        ⟨404, .card ⟨apiMetadata, ⟨bin, cn, em, ey⟩, ⟨true, true⟩,
          none, "error", notFoundMsg⟩, true⟩) ∧
    (∀ s body, s ≠ 200 → s ≠ 404 →
      lookupBin pj (.response s body) = .error ⟨upstreamErrMsg s, none, some body⟩ ∧
      cardFlow pj bin cn em ey cy cm (.response s body) =
        ⟨500, .card ⟨apiMetadata, ⟨bin, cn, em, ey⟩, ⟨true, true⟩,
          none, "error", upstreamErrMsg s⟩, true⟩) ∧
    (∀ body, pj body = none →
      lookupBin pj (.response 200 body) = .error ⟨parseErrorMsg, none, some jsonErrorDetails⟩ ∧
      cardFlow pj bin cn em ey cy cm (.response 200 body) =
        ⟨500, .card ⟨apiMetadata, ⟨bin, cn, em, ey⟩, ⟨true, true⟩,
          none, "error", parseErrorMsg⟩, true⟩) ∧
    (∀ msg,
      lookupBin pj (.transportError msg) = .error ⟨transportErrMsg, none, some msg⟩ ∧
      cardFlow pj bin cn em ey cy cm (.transportError msg) =
        ⟨500, .card ⟨apiMetadata, ⟨bin, cn, em, ey⟩, ⟨true, true⟩,
          none, "error", transportErrMsg⟩, true⟩) ∧
    (∀ up e, lookupBin pj up = .error e →
      (cardFlow pj bin cn em ey cy cm up).statusCode = e.status.getD 500 ∧
      ∃ cr, (cardFlow pj bin cn em ey cy cm up).body = .card cr ∧
        cr.card_info = none ∧ cr.message = e.error) := by
  refine ⟨fun body d hp => ⟨?_, ?_⟩, fun body => ⟨?_, ?_⟩,
    fun s body h200 h404 => ⟨?_, ?_⟩, fun body hp => ⟨?_, ?_⟩,
    fun msg => ⟨?_, ?_⟩, fun up e hup => ?_⟩
  · simp [lookupBin, hp]
  · simp [cardFlow, hl, he, lookupBin, hp, baseResponse]
  · simp [lookupBin]
  · simp [cardFlow, hl, he, lookupBin, baseResponse, notFoundMsg]
  · simp [lookupBin, h200, h404]
  · have hne := upstreamErrMsg_ne_empty s
    simp [cardFlow, hl, he, lookupBin, h200, h404, baseResponse, hne]
  · simp [lookupBin, hp]
  · simp [cardFlow, hl, he, lookupBin, hp, baseResponse, parseErrorMsg]
  · simp [lookupBin]
  · simp [cardFlow, hl, he, lookupBin, baseResponse, transportErrMsg]
  · have hne := lookupBin_error_ne_empty pj up e hup
    refine ⟨by simp [cardFlow, hl, he, hup], ?_⟩
    refine ⟨{ baseResponse bin cn em ey cy cm with
              message := if e.error = "" then internalErrMsg else e.error }, ?_, rfl, ?_⟩
    · simp [cardFlow, hl, he, hup]
    · simp [hne]

/-- C4 witness: the upstream-404 branch at a concrete request. -/
theorem lookup_outcome_mapping_witness :
    lookupBin (fun _ => none) (.response 404 "") = .error ⟨notFoundMsg, some 404, none⟩ ∧
    cardFlow (fun _ => none) "457173" "4571736000000000" "12" "28" 2025 10
        (.response 404 "") =
      ⟨404, .card ⟨apiMetadata, ⟨"457173", "4571736000000000", "12", "28"⟩,
        ⟨true, true⟩, none, "error", notFoundMsg⟩, true⟩ :=
  (lookup_outcome_mapping (fun _ => none) 2025 10 "457173" "4571736000000000"
    "12" "28" (by decide) (by decide)).2.1 ""

/-! ### Claim C7: sentinel defaulting of `card_info` -/

/-- An upstream reply whose `country` object is present but entirely empty:
every country sub-field is absent. -/
def gapCountry : CountryInfo := ⟨none, none, none, none, none, none, none⟩

/-- An upstream reply with a present-but-empty `country` and everything else
absent. -/
def gapBinData : BinData := ⟨none, none, none, none, none, some gapCountry, none⟩

/-- C7 counterexample: with `country` present upstream but `country.name`
absent, the assembled `card_info.country.name` is `undefined` (omitted from
the serialized body), not an explicit sentinel; and an absent `prepaid`
renders as the definite `Não`, not an unknown sentinel. So not every absent
upstream field is defaulted to a sentinel. -/
theorem card_info_nested_field_omitted :
    gapBinData.country = some gapCountry ∧ gapCountry.name = none ∧
    (buildCardInfo gapBinData).country.name = none ∧
    (buildCardInfo gapBinData).prepaid = "Não" := by
  decide

/-- C7 (amended): the top-level `scheme`, `brand` and `type` default to the
`N/A` sentinel when absent; an absent `prepaid` renders as `Não`; when the
whole `number`, `country` or `bank` object is absent, every derived
sub-field is the `N/A` sentinel; but when the parent object is present, its
sub-fields are passed through unchanged - an absent sub-field of a present
object stays omitted rather than defaulted, except `number.luhn`, which
renders as `Não`. -/
theorem card_info_defaulting_amended (b : BinData) :
    (b.scheme = none → (buildCardInfo b).scheme = "N/A") ∧
    (b.brand = none → (buildCardInfo b).brand = "N/A") ∧
    (b.type = none → (buildCardInfo b).type = "N/A") ∧
    (b.prepaid = none → (buildCardInfo b).prepaid = "Não") ∧
    (b.number = none →
      (buildCardInfo b).number_details = ⟨naJ, "N/A"⟩) ∧
    (b.country = none →
      (buildCardInfo b).country = ⟨naJ, naJ, naJ, naJ, naJ, ⟨naJ, naJ⟩⟩) ∧
    (b.bank = none → (buildCardInfo b).bank = ⟨naJ, naJ, naJ, naJ⟩) ∧
    (∀ n, b.number = some n →
      (buildCardInfo b).number_details = ⟨n.length, simNao n.luhn⟩) ∧
    (∀ c, b.country = some c →
      (buildCardInfo b).country =
        ⟨c.name, c.alpha2, c.numeric, c.currency, c.emoji, ⟨c.latitude, c.longitude⟩⟩) ∧
    (∀ k, b.bank = some k →
      (buildCardInfo b).bank = ⟨k.name, k.url, k.phone, k.city⟩) := by
  refine ⟨fun h => ?_, fun h => ?_, fun h => ?_, fun h => ?_, fun h => ?_,
    fun h => ?_, fun h => ?_, fun n h => ?_, fun c h => ?_, fun k h => ?_⟩ <;>
    simp [buildCardInfo, h, orNA, simNao]

/-- C7 witness: the amended defaulting at an upstream reply with every field
absent. -/
theorem card_info_defaulting_amended_witness :
    (buildCardInfo ⟨none, none, none, none, none, none, none⟩).scheme = "N/A" :=
  (card_info_defaulting_amended ⟨none, none, none, none, none, none, none⟩).1 rfl

end CarderInfo
